import Mathlib

/-!
Verification of the drift account indexer against its specification.

The Rust sources are shallowly embedded below: pure functions become Lean
functions, the storage backend becomes explicit state passing over the
in-repository `MockBackend` state, and runtime aborts (slice `split_at`
out of range, `unwrap` on `None`) are made explicit through a three-valued
result type `RunResult` with a `panics` constructor.  Machine integers are
modelled as `Nat`/`Int`; the byte-level decoding works on `List Nat` with
every element below 256 by construction of the decoders.
-/

set_option maxRecDepth 100000

/-- Bytes are lists of naturals (each below 256 as produced by the decoders). -/
abbrev Bytes := List Nat

/-- Public keys are 32-byte values (`solana_sdk::pubkey::Pubkey`). -/
abbrev Pubkey := Bytes

/-- Transaction signatures are 64-byte values (`solana_sdk::signature::Signature`). -/
abbrev SignatureBytes := Bytes

/-- Alphabet used by the bs58 encoding of public keys and signatures. -/
def BASE58_ALPHABET : List Char :=
  "123456789ABCDEFGHJKLMNPQRSTUVWXYZabcdefghijkmnopqrstuvwxyz".data

/-- Value of one base58 digit, or `none` for a character outside the alphabet. -/
def b58Val (c : Char) : Option Nat :=
  let i := BASE58_ALPHABET.indexOf c
  if i < BASE58_ALPHABET.length then some i else none

/-- Big-endian base-256 digits of `n` (no leading zeros); the first argument is
recursion fuel, large enough for every input produced in this development. -/
def natToBytesFuel : Nat → Nat → Bytes
  | 0, _ => []
  | fuel + 1, n => if n = 0 then [] else natToBytesFuel fuel (n / 256) ++ [n % 256]

/-- Base58-decode a string to bytes: every character must be in the alphabet;
leading alphabet zeros (the character 1) become leading zero bytes. -/
def base58Decode (s : String) : Option Bytes :=
  match s.data.mapM b58Val with
  | none => none
  | some vals =>
    let n := vals.foldl (fun acc v => acc * 58 + v) 0
    let lz := (s.data.takeWhile (fun c => c == '1')).length
    some (List.replicate lz 0 ++ natToBytesFuel 128 n)

/-- Embedding of `Pubkey::try_from(&str)`: at most 44 characters, base58
decoding to exactly 32 bytes. -/
def Pubkey.try_from (s : String) : Option Pubkey :=
  if s.length > 44 then none
  else
    match base58Decode s with
    | some bytes => if bytes.length = 32 then some bytes else none
    | none => none

/-- Embedding of `Signature::from_str`: at most 88 characters, base58 decoding
to exactly 64 bytes. -/
def Signature.from_str (s : String) : Option SignatureBytes :=
  if s.length > 88 then none
  else
    match base58Decode s with
    | some bytes => if bytes.length = 64 then some bytes else none
    | none => none

/-- `DRIFT_PDA` constant from `types.rs`. -/
def DRIFT_PDA : String := "dRiftyHA39MWEi3m9aunc5MzRF1JYuBsbn6VPcn33UH"

/-- Embedding of `drift_pda()` from `types.rs`: the parsed drift program
address (the in-source string is a valid address, so the `unwrap` in the
source never aborts; `getD` supplies the unreachable default). -/
def drift_pda : Pubkey := (Pubkey.try_from DRIFT_PDA).getD []

/-- `PROGRAM_LOG` marker constant from `types.rs`. -/
def PROGRAM_LOG : String := "Program log: "

/-- `PROGRAM_DATA` marker constant from `types.rs`. -/
def PROGRAM_DATA : String := "Program data: "

/-- Strip `pre` from the front of `cs`, or `none` when `cs` does not start
with `pre` (embedding of `str::strip_prefix`). -/
def stripPrefixChars : List Char → List Char → Option (List Char)
  | [], rest => some rest
  | _ :: _, [] => none
  | p :: ps, c :: cs => if c = p then stripPrefixChars ps cs else none

/-- The marker test of `try_parse_log`: strip `PROGRAM_LOG`, or else strip
`PROGRAM_DATA`, from the raw log line. -/
def stripMarker (raw : String) : Option (List Char) :=
  match stripPrefixChars PROGRAM_LOG.data raw.data with
  | some rest => some rest
  | none => stripPrefixChars PROGRAM_DATA.data raw.data

/-- Value of one base64 digit (standard alphabet), or `none` for a character
outside the alphabet. -/
def b64Val (c : Char) : Option Nat :=
  if 65 ≤ c.toNat ∧ c.toNat ≤ 90 then some (c.toNat - 65)
  else if 97 ≤ c.toNat ∧ c.toNat ≤ 122 then some (c.toNat - 71)
  else if 48 ≤ c.toNat ∧ c.toNat ≤ 57 then some (c.toNat + 4)
  else if c = '+' then some 62
  else if c = '/' then some 63
  else none

/-- Pack base64 sextet values into bytes, four sextets to three bytes; a
remainder of one sextet, or non-zero trailing bits in the final partial
group, is a decode error (strict semantics of `base64::decode`). -/
def sextetsToBytes : List Nat → Option Bytes
  | [] => some []
  | [_] => none
  | [a, b] => if b % 16 = 0 then some [a * 4 + b / 16] else none
  | [a, b, c] =>
    if c % 4 = 0 then some [a * 4 + b / 16, b % 16 * 16 + c / 4] else none
  | a :: b :: c :: d :: rest =>
    match sextetsToBytes rest with
    | some bytes =>
      some ((a * 4 + b / 16) :: (b % 16 * 16 + c / 4) :: (c % 4 * 64 + d) :: bytes)
    | none => none

/-- Number of trailing padding characters of a base64 string. -/
def countTrailingPad (cs : List Char) : Nat :=
  (cs.reverse.takeWhile (fun c => c == '=')).length

/-- Embedding of `base64::decode` (standard alphabet, padding accepted at the
end only, strict about stray bits), as used through
`anchor_lang::__private::base64::decode` in `try_parse_log`. -/
def base64Decode (cs : List Char) : Option Bytes :=
  let pads := countTrailingPad cs
  if pads > 2 then none
  else if pads > 0 ∧ cs.length % 4 ≠ 0 then none
  else
    match (cs.take (cs.length - pads)).mapM b64Val with
    | none => none
    | some vals => sextetsToBytes vals

/-- Read `n` raw bytes (borsh is little-endian, length-checked). -/
def readBytes (n : Nat) (bs : Bytes) : Option (Bytes × Bytes) :=
  if n ≤ bs.length then some (bs.take n, bs.drop n) else none

/-- Little-endian value of a byte list. -/
def leNat (bs : Bytes) : Nat := bs.foldr (fun b acc => b + 256 * acc) 0

/-- Borsh read of an unsigned `8 * n`-bit little-endian integer. -/
def readUInt (n : Nat) (bs : Bytes) : Option (Nat × Bytes) :=
  match readBytes n bs with
  | some (chunk, rest) => some (leNat chunk, rest)
  | none => none

/-- Reinterpret a `w`-bit unsigned value as two's-complement signed. -/
def toSigned (w : Nat) (v : Nat) : Int :=
  if v < 2 ^ (w - 1) then (v : Int) else (v : Int) - 2 ^ w

/-- Borsh read of a signed `8 * n`-byte little-endian integer. -/
def readSInt (n : Nat) (bs : Bytes) : Option (Int × Bytes) :=
  match readUInt n bs with
  | some (v, rest) => some (toSigned (8 * n) v, rest)
  | none => none

/-- Borsh read of a `bool`: one byte, strictly 0 or 1. -/
def readBool (bs : Bytes) : Option (Bool × Bytes) :=
  match bs with
  | 0 :: rest => some (false, rest)
  | 1 :: rest => some (true, rest)
  | _ => none

/-- Borsh read of an `Option`: one tag byte, strictly 0 (absent) or 1
(present, followed by the payload). -/
def readOpt {α : Type} (rd : Bytes → Option (α × Bytes)) (bs : Bytes) :
    Option (Option α × Bytes) :=
  match bs with
  | 0 :: rest => some (none, rest)
  | 1 :: rest =>
    match rd rest with
    | some (v, rest2) => some (some v, rest2)
    | none => none
  | _ => none

/-- Borsh read of a `Pubkey` (32 raw bytes). -/
def readPubkey (bs : Bytes) : Option (Pubkey × Bytes) := readBytes 32 bs

/-- Modelled from the spec: the event schema comes from the interface
description document `res/drift-2.30.0-beta.1.json`, which is not under
`src/`.  The variants and their indices are pinned by the decoded test
vector in `src/indexer/src/lib.rs` (the `Fill` action decodes from byte 2). -/
inductive OrderAction
  | Place
  | Cancel
  | Fill
  | Trigger
  | Expire
deriving DecidableEq

/-- Borsh read of an `OrderAction` (one variant-index byte). -/
def readOrderAction (bs : Bytes) : Option (OrderAction × Bytes) :=
  match bs with
  | 0 :: rest => some (.Place, rest)
  | 1 :: rest => some (.Cancel, rest)
  | 2 :: rest => some (.Fill, rest)
  | 3 :: rest => some (.Trigger, rest)
  | 4 :: rest => some (.Expire, rest)
  | _ => none

/-- Modelled from the spec: variant list of the order-action explanation
enum from the missing interface-description document; index 8 is pinned to
`OrderFilledWithMatch` by the test vector in `src/indexer/src/lib.rs`. -/
inductive OrderActionExplanation
  | NoExplanation
  | InsufficientFreeCollateral
  | OraclePriceBreachedLimitPrice
  | MarketOrderFilledToLimitPrice
  | OrderExpired
  | Liquidation
  | OrderFilledWithAMM
  | OrderFilledWithAMMJit
  | OrderFilledWithMatch
  | OrderFilledWithMatchJit
  | MarketExpired
  | RiskingIncreasingOrder
  | ReduceOnlyOrderIncreasedPosition
deriving DecidableEq

/-- Borsh read of an `OrderActionExplanation` (one variant-index byte). -/
def readOrderActionExplanation (bs : Bytes) :
    Option (OrderActionExplanation × Bytes) :=
  match bs with
  | 0 :: rest => some (.NoExplanation, rest)
  | 1 :: rest => some (.InsufficientFreeCollateral, rest)
  | 2 :: rest => some (.OraclePriceBreachedLimitPrice, rest)
  | 3 :: rest => some (.MarketOrderFilledToLimitPrice, rest)
  | 4 :: rest => some (.OrderExpired, rest)
  | 5 :: rest => some (.Liquidation, rest)
  | 6 :: rest => some (.OrderFilledWithAMM, rest)
  | 7 :: rest => some (.OrderFilledWithAMMJit, rest)
  | 8 :: rest => some (.OrderFilledWithMatch, rest)
  | 9 :: rest => some (.OrderFilledWithMatchJit, rest)
  | 10 :: rest => some (.MarketExpired, rest)
  | 11 :: rest => some (.RiskingIncreasingOrder, rest)
  | 12 :: rest => some (.ReduceOnlyOrderIncreasedPosition, rest)
  | _ => none

/-- Modelled from the spec (missing interface-description document); index 1
is pinned to `Perp` by the test vector in `src/indexer/src/lib.rs`. -/
inductive MarketType
  | Spot
  | Perp
deriving DecidableEq

/-- Borsh read of a `MarketType` (one variant-index byte). -/
def readMarketType (bs : Bytes) : Option (MarketType × Bytes) :=
  match bs with
  | 0 :: rest => some (.Spot, rest)
  | 1 :: rest => some (.Perp, rest)
  | _ => none

/-- Modelled from the spec (missing interface-description document); indices
pinned by the test vector: `Long` from byte 0 and `Short` from byte 1. -/
inductive PositionDirection
  | Long
  | Short
deriving DecidableEq

/-- Borsh read of a `PositionDirection` (one variant-index byte). -/
def readPositionDirection (bs : Bytes) : Option (PositionDirection × Bytes) :=
  match bs with
  | 0 :: rest => some (.Long, rest)
  | 1 :: rest => some (.Short, rest)
  | _ => none

/-- The `OrderActionRecord` event struct generated by `gen_idl_types` from the
interface-description document.  The document itself is not under `src/`; the
field list and widths are pinned exactly by the unit test in
`src/indexer/src/lib.rs`, which asserts every field of a decoded instance. -/
structure OrderActionRecord where
  ts : Int
  action : OrderAction
  actionExplanation : OrderActionExplanation
  marketIndex : Nat
  marketType : MarketType
  filler : Option Pubkey
  fillerReward : Option Nat
  fillRecordId : Option Nat
  baseAssetAmountFilled : Option Nat
  quoteAssetAmountFilled : Option Nat
  takerFee : Option Nat
  makerFee : Option Int
  referrerReward : Option Nat
  quoteAssetAmountSurplus : Option Int
  spotFulfillmentMethodFee : Option Nat
  taker : Option Pubkey
  takerOrderId : Option Nat
  takerOrderDirection : Option PositionDirection
  takerOrderBaseAssetAmount : Option Nat
  takerOrderCumulativeBaseAssetAmountFilled : Option Nat
  takerOrderCumulativeQuoteAssetAmountFilled : Option Nat
  maker : Option Pubkey
  makerOrderId : Option Nat
  makerOrderDirection : Option PositionDirection
  makerOrderBaseAssetAmount : Option Nat
  makerOrderCumulativeBaseAssetAmountFilled : Option Nat
  makerOrderCumulativeQuoteAssetAmountFilled : Option Nat
  oraclePrice : Int
deriving DecidableEq

/-- Borsh deserialization of `OrderActionRecord` as derived by
`AnchorDeserialize` on the generated struct (field order as generated). -/
def deserializeOrderActionRecord (bs0 : Bytes) :
    Option (OrderActionRecord × Bytes) :=
  match readSInt 8 bs0 with
  | none => none
  | some (ts, bs1) =>
  match readOrderAction bs1 with
  | none => none
  | some (action, bs2) =>
  match readOrderActionExplanation bs2 with
  | none => none
  | some (actionExplanation, bs3) =>
  match readUInt 2 bs3 with
  | none => none
  | some (marketIndex, bs4) =>
  match readMarketType bs4 with
  | none => none
  | some (marketType, bs5) =>
  match readOpt readPubkey bs5 with
  | none => none
  | some (filler, bs6) =>
  match readOpt (readUInt 8) bs6 with
  | none => none
  | some (fillerReward, bs7) =>
  match readOpt (readUInt 8) bs7 with
  | none => none
  | some (fillRecordId, bs8) =>
  match readOpt (readUInt 8) bs8 with
  | none => none
  | some (baseAssetAmountFilled, bs9) =>
  match readOpt (readUInt 8) bs9 with
  | none => none
  | some (quoteAssetAmountFilled, bs10) =>
  match readOpt (readUInt 8) bs10 with
  | none => none
  | some (takerFee, bs11) =>
  match readOpt (readSInt 8) bs11 with
  | none => none
  | some (makerFee, bs12) =>
  match readOpt (readUInt 4) bs12 with
  | none => none
  | some (referrerReward, bs13) =>
  match readOpt (readSInt 8) bs13 with
  | none => none
  | some (quoteAssetAmountSurplus, bs14) =>
  match readOpt (readUInt 8) bs14 with
  | none => none
  | some (spotFulfillmentMethodFee, bs15) =>
  match readOpt readPubkey bs15 with
  | none => none
  | some (taker, bs16) =>
  match readOpt (readUInt 4) bs16 with
  | none => none
  | some (takerOrderId, bs17) =>
  match readOpt readPositionDirection bs17 with
  | none => none
  | some (takerOrderDirection, bs18) =>
  match readOpt (readUInt 8) bs18 with
  | none => none
  | some (takerOrderBaseAssetAmount, bs19) =>
  match readOpt (readUInt 8) bs19 with
  | none => none
  | some (takerOrderCumulativeBaseAssetAmountFilled, bs20) =>
  match readOpt (readUInt 8) bs20 with
  | none => none
  | some (takerOrderCumulativeQuoteAssetAmountFilled, bs21) =>
  match readOpt readPubkey bs21 with
  | none => none
  | some (maker, bs22) =>
  match readOpt (readUInt 4) bs22 with
  | none => none
  | some (makerOrderId, bs23) =>
  match readOpt readPositionDirection bs23 with
  | none => none
  | some (makerOrderDirection, bs24) =>
  match readOpt (readUInt 8) bs24 with
  | none => none
  | some (makerOrderBaseAssetAmount, bs25) =>
  match readOpt (readUInt 8) bs25 with
  | none => none
  | some (makerOrderCumulativeBaseAssetAmountFilled, bs26) =>
  match readOpt (readUInt 8) bs26 with
  | none => none
  | some (makerOrderCumulativeQuoteAssetAmountFilled, bs27) =>
  match readSInt 8 bs27 with
  | none => none
  | some (oraclePrice, bs28) =>
  some ({ ts, action, actionExplanation, marketIndex, marketType, filler, fillerReward, fillRecordId, baseAssetAmountFilled, quoteAssetAmountFilled, takerFee, makerFee, referrerReward, quoteAssetAmountSurplus, spotFulfillmentMethodFee, taker, takerOrderId, takerOrderDirection, takerOrderBaseAssetAmount, takerOrderCumulativeBaseAssetAmountFilled, takerOrderCumulativeQuoteAssetAmountFilled, maker, makerOrderId, makerOrderDirection, makerOrderBaseAssetAmount, makerOrderCumulativeBaseAssetAmountFilled, makerOrderCumulativeQuoteAssetAmountFilled, oraclePrice }, bs28)

/-- Modelled from the spec (missing interface-description document): order
status enum of the order-lifecycle record. -/
inductive OrderStatus
  | Init
  | Open
  | Filled
  | Canceled
deriving DecidableEq

/-- Borsh read of an `OrderStatus` (one variant-index byte). -/
def readOrderStatus (bs : Bytes) : Option (OrderStatus × Bytes) :=
  match bs with
  | 0 :: rest => some (.Init, rest)
  | 1 :: rest => some (.Open, rest)
  | 2 :: rest => some (.Filled, rest)
  | 3 :: rest => some (.Canceled, rest)
  | _ => none

/-- Modelled from the spec (missing interface-description document): order
type enum of the order-lifecycle record. -/
inductive OrderType
  | Market
  | Limit
  | TriggerMarket
  | TriggerLimit
  | Oracle
deriving DecidableEq

/-- Borsh read of an `OrderType` (one variant-index byte). -/
def readOrderType (bs : Bytes) : Option (OrderType × Bytes) :=
  match bs with
  | 0 :: rest => some (.Market, rest)
  | 1 :: rest => some (.Limit, rest)
  | 2 :: rest => some (.TriggerMarket, rest)
  | 3 :: rest => some (.TriggerLimit, rest)
  | 4 :: rest => some (.Oracle, rest)
  | _ => none

/-- Modelled from the spec (missing interface-description document): trigger
condition enum of the order-lifecycle record. -/
inductive OrderTriggerCondition
  | Above
  | Below
  | TriggeredAbove
  | TriggeredBelow
deriving DecidableEq

/-- Borsh read of an `OrderTriggerCondition` (one variant-index byte). -/
def readOrderTriggerCondition (bs : Bytes) :
    Option (OrderTriggerCondition × Bytes) :=
  match bs with
  | 0 :: rest => some (.Above, rest)
  | 1 :: rest => some (.Below, rest)
  | 2 :: rest => some (.TriggeredAbove, rest)
  | 3 :: rest => some (.TriggeredBelow, rest)
  | _ => none

/-- Modelled from the spec: the `Order` struct of the order-lifecycle record;
the interface-description document fixing its schema is not under `src/`, so
the field list follows the drift program interface the spec references. -/
structure Order where
  slot : Nat
  price : Nat
  baseAssetAmount : Nat
  baseAssetAmountFilled : Nat
  quoteAssetAmountFilled : Nat
  triggerPrice : Nat
  auctionStartPrice : Int
  auctionEndPrice : Int
  maxTs : Int
  oraclePriceOffset : Int
  orderId : Nat
  marketIndex : Nat
  status : OrderStatus
  orderType : OrderType
  marketType : MarketType
  userOrderId : Nat
  existingPositionDirection : PositionDirection
  direction : PositionDirection
  reduceOnly : Bool
  postOnly : Bool
  immediateOrCancel : Bool
  triggerCondition : OrderTriggerCondition
  auctionDuration : Nat
  padding : Bytes
deriving DecidableEq

/-- Borsh deserialization of `Order` over the modelled schema. -/
def deserializeOrder (bs0 : Bytes) :
    Option (Order × Bytes) :=
  match readUInt 8 bs0 with
  | none => none
  | some (slot, bs1) =>
  match readUInt 8 bs1 with
  | none => none
  | some (price, bs2) =>
  match readUInt 8 bs2 with
  | none => none
  | some (baseAssetAmount, bs3) =>
  match readUInt 8 bs3 with
  | none => none
  | some (baseAssetAmountFilled, bs4) =>
  match readUInt 8 bs4 with
  | none => none
  | some (quoteAssetAmountFilled, bs5) =>
  match readUInt 8 bs5 with
  | none => none
  | some (triggerPrice, bs6) =>
  match readSInt 8 bs6 with
  | none => none
  | some (auctionStartPrice, bs7) =>
  match readSInt 8 bs7 with
  | none => none
  | some (auctionEndPrice, bs8) =>
  match readSInt 8 bs8 with
  | none => none
  | some (maxTs, bs9) =>
  match readSInt 4 bs9 with
  | none => none
  | some (oraclePriceOffset, bs10) =>
  match readUInt 4 bs10 with
  | none => none
  | some (orderId, bs11) =>
  match readUInt 2 bs11 with
  | none => none
  | some (marketIndex, bs12) =>
  match readOrderStatus bs12 with
  | none => none
  | some (status, bs13) =>
  match readOrderType bs13 with
  | none => none
  | some (orderType, bs14) =>
  match readMarketType bs14 with
  | none => none
  | some (marketType, bs15) =>
  match readUInt 1 bs15 with
  | none => none
  | some (userOrderId, bs16) =>
  match readPositionDirection bs16 with
  | none => none
  | some (existingPositionDirection, bs17) =>
  match readPositionDirection bs17 with
  | none => none
  | some (direction, bs18) =>
  match readBool bs18 with
  | none => none
  | some (reduceOnly, bs19) =>
  match readBool bs19 with
  | none => none
  | some (postOnly, bs20) =>
  match readBool bs20 with
  | none => none
  | some (immediateOrCancel, bs21) =>
  match readOrderTriggerCondition bs21 with
  | none => none
  | some (triggerCondition, bs22) =>
  match readUInt 1 bs22 with
  | none => none
  | some (auctionDuration, bs23) =>
  match readBytes 3 bs23 with
  | none => none
  | some (padding, bs24) =>
  some ({ slot, price, baseAssetAmount, baseAssetAmountFilled, quoteAssetAmountFilled, triggerPrice, auctionStartPrice, auctionEndPrice, maxTs, oraclePriceOffset, orderId, marketIndex, status, orderType, marketType, userOrderId, existingPositionDirection, direction, reduceOnly, postOnly, immediateOrCancel, triggerCondition, auctionDuration, padding }, bs24)

/-- The `OrderRecord` event struct generated by `gen_idl_types`; schema
modelled from the spec (the interface-description document is not under
`src/`), with the `user` field pinned by its use in `src/indexer/src/lib.rs`. -/
structure OrderRecord where
  ts : Int
  user : Pubkey
  order : Order
deriving DecidableEq

/-- Borsh deserialization of `OrderRecord` over the modelled schema. -/
def deserializeOrderRecord (bs0 : Bytes) :
    Option (OrderRecord × Bytes) :=
  match readSInt 8 bs0 with
  | none => none
  | some (ts, bs1) =>
  match readPubkey bs1 with
  | none => none
  | some (user, bs2) =>
  match deserializeOrder bs2 with
  | none => none
  | some (order, bs3) =>
  some ({ ts, user, order }, bs3)

/-- Anchor event discriminator of `OrderActionRecord`: the first 8 bytes of
sha256 of the name prefixed by the event namespace, embedded as the constant
the generated `DISCRIMINATOR` expands to (it also prefixes the in-repository
test vector payload). -/
def OrderActionRecord.discriminator : Bytes := [224, 52, 67, 71, 194, 237, 109, 1]

/-- Anchor event discriminator of `OrderRecord` (same construction). -/
def OrderRecord.discriminator : Bytes := [104, 19, 64, 56, 89, 21, 2, 90]

/-- The `DriftEvent` tagged union generated by `gen_idl_types` over the event
kinds of the interface-description document (modelled from the spec with the
two kinds the repository names: the storage interface in
`src/indexer/src/db.rs` has exactly one insert method per event kind). -/
inductive DriftEvent
  | OrderActionRecord (record : OrderActionRecord)
  | OrderRecord (record : OrderRecord)
deriving DecidableEq

/-- Embedding of the generated `DriftEvent::from_discriminant`: match the
8-byte discriminant against each registered event, deserialize the remaining
bytes on a hit (a failed deserialization becomes `none` through `.ok()?`),
and return `none` for an unregistered discriminant. -/
def DriftEvent.from_discriminant (disc : Bytes) (data : Bytes) : Option DriftEvent :=
  if disc = OrderActionRecord.discriminator then
    match deserializeOrderActionRecord data with
    | some (record, _) => some (DriftEvent.OrderActionRecord record)
    | none => none
  else if disc = OrderRecord.discriminator then
    match deserializeOrderRecord data with
    | some (record, _) => some (DriftEvent.OrderRecord record)
    | none => none
  else none

/-- `LogError` from `types.rs`. -/
inductive LogError
  | InvalidBase64
deriving DecidableEq

/-- `DbError` from `db.rs`. -/
inductive DbError
  | Insert (message : String)
deriving DecidableEq

/-- `IndexerError` from `types.rs` (the RPC client error is modelled as an
opaque message string). -/
inductive IndexerError
  | Rpc (message : String)
  | Db (e : DbError)
  | InvalidSignature
  | InvalidPublicKey
  | LogParse (e : LogError)
deriving DecidableEq

/-- Outcome of running a fallible piece of the indexer: a runtime abort
(`panics`), an error return (`fails`), or a normal return (`ok`). -/
inductive RunResult (ε : Type) (α : Type)
  | panics
  | fails (e : ε)
  | ok (a : α)
deriving DecidableEq

/-- Embedding of `try_parse_log` from `types.rs`: strip the `PROGRAM_LOG`
marker or else the `PROGRAM_DATA` marker; base64-decode the remainder,
failing with `InvalidBase64` when the decode fails; split off the first 8
bytes as the discriminant (the unchecked `split_at(8)` aborts when fewer
than 8 bytes decoded) and dispatch through `from_discriminant`.  A line
without either marker yields `ok none`. -/
def try_parse_log (raw : String) : RunResult LogError (Option DriftEvent) :=
  match stripMarker raw with
  | some log =>
    match base64Decode log with
    | none => .fails .InvalidBase64
    | some borshBytes =>
      if borshBytes.length < 8 then .panics
      else .ok (DriftEvent.from_discriminant (borshBytes.take 8) (borshBytes.drop 8))
  | none => .ok none

/-- Modelled from the spec: `handle_log::<OrderActionRecord>` is called by
`index_transaction` but its definition is not under `src/`.  Per the spec's
Log Scanner contract it extracts the embedded payload of one log line and
resolves it through the Registry; the call site's type parameter selects the
`OrderActionRecord` kind, so any other extracted kind yields `none`. -/
def handle_log_order_action_record (log : String) :
    RunResult LogError (Option OrderActionRecord) :=
  match try_parse_log log with
  | .panics => .panics
  | .fails e => .fails e
  | .ok (some (DriftEvent.OrderActionRecord record)) => .ok (some record)
  | .ok _ => .ok none

/-- Modelled from the spec: `handle_log::<OrderRecord>`, as above but
selecting the `OrderRecord` kind. -/
def handle_log_order_record (log : String) :
    RunResult LogError (Option OrderRecord) :=
  match try_parse_log log with
  | .panics => .panics
  | .fails e => .fails e
  | .ok (some (DriftEvent.OrderRecord record)) => .ok (some record)
  | .ok _ => .ok none

/-- One write issued to the storage backend, recorded in order as the
instrumentation history of the mock backend state. -/
inductive DbOp
  | setCursor (account : Pubkey) (signature : SignatureBytes)
  | insertOrderActionRecord (record : OrderActionRecord)
  | insertOrderRecord (record : OrderRecord)
deriving DecidableEq

/-- State of the in-repository `MockBackend` from `db.rs` (vectors of stored
records and the single last-signature cell), extended with a chronological
`history` of the writes for stating ordering properties. -/
structure MockDb where
  order_action_records : List OrderActionRecord
  order_records : List OrderRecord
  last_signature : Option SignatureBytes
  history : List DbOp
deriving DecidableEq

/-- `MockBackend::last_indexed_signature` (reads the cell, never fails). -/
def MockDb.last_indexed_signature (db : MockDb) : Option SignatureBytes :=
  db.last_signature

/-- `MockBackend::insert_order_action_record` (pushes the record). -/
def MockDb.insert_order_action_record (db : MockDb) (record : OrderActionRecord) : MockDb :=
  { db with order_action_records := db.order_action_records ++ [record],
            history := db.history ++ [DbOp.insertOrderActionRecord record] }

/-- `MockBackend::insert_order_record` (pushes the record). -/
def MockDb.insert_order_record (db : MockDb) (record : OrderRecord) : MockDb :=
  { db with order_records := db.order_records ++ [record],
            history := db.history ++ [DbOp.insertOrderRecord record] }

/-- `MockBackend::update_last_indexed_signature` (overwrites the cell; the
stored cell is shared across accounts exactly as in the mock). -/
def MockDb.update_last_indexed_signature (db : MockDb) (account : Pubkey)
    (signature : SignatureBytes) : MockDb :=
  { db with last_signature := some signature,
            history := db.history ++ [DbOp.setCursor account signature] }

/-- The decoded transaction message (result of `VersionedTransaction` decode):
the indexer only inspects its static account keys. -/
structure DecodedMessage where
  static_account_keys : List Pubkey

/-- Transaction metadata: optional log messages (`OptionSerializer` flattened
to `Option`). -/
structure TxMeta where
  log_messages : Option (List String)

/-- The body returned by `get_transaction_with_config`: the encoded
transaction is represented by its decode result (`none` when
`EncodedTransaction::decode` fails), plus optional metadata. -/
structure TxResponse where
  decoded_transaction : Option DecodedMessage
  meta : Option TxMeta

/-- The inner log loop of `index_transaction` (lines 122 to 135 of
`src/indexer/src/lib.rs`): for every log line, a successfully extracted
`OrderActionRecord` is inserted, then a successfully extracted `OrderRecord`
is inserted; extraction errors are swallowed by the `if let Ok` patterns,
while an extraction abort propagates. -/
def index_logs : List String → MockDb → RunResult IndexerError MockDb
  | [], db => .ok db
  | log :: rest, db =>
    match handle_log_order_action_record log, handle_log_order_record log with
    | .panics, _ => .panics
    | _, .panics => .panics
    | first, second =>
      let db1 := match first with
        | .ok (some record) => db.insert_order_action_record record
        | _ => db
      let db2 := match second with
        | .ok (some record) => db1.insert_order_record record
        | _ => db1
      index_logs rest db2

/-- Embedding of `DriftEventIndexer::index_transaction`:  parse the
signature string (an unparsable one fails with `InvalidSignature`); fetch
the transaction (the fetch outcome is the `fetch_result` environment
argument, an RPC failure propagates); a transaction that does not decode, or
whose static account keys do not include the drift program address, returns
with no effect; otherwise process the metadata log lines and finally write
the cursor with this call's own signature (the second parse cannot fail,
mirroring the in-source `unwrap`). -/
def DriftEventIndexer.index_transaction (fetch_result : Except String TxResponse)
    (db : MockDb) (account : Pubkey) (tx_signature : String) :
    RunResult IndexerError MockDb :=
  match Signature.from_str tx_signature with
  | none => .fails .InvalidSignature
  | some _ =>
    match fetch_result with
    | .error e => .fails (.Rpc e)
    | .ok tx_data =>
      match tx_data.decoded_transaction with
      | none => .ok db
      | some message =>
        if ! message.static_account_keys.any (fun k => k == drift_pda) then .ok db
        else
          let after_logs :=
            match tx_data.meta with
            | some meta =>
              match meta.log_messages with
              | some logs => index_logs logs db
              | none => .ok db
            | none => .ok db
          match after_logs with
          | .panics => .panics
          | .fails e => .fails e
          | .ok db2 =>
            match Signature.from_str tx_signature with
            | some signature => .ok (db2.update_last_indexed_signature account signature)
            | none => .panics

/-- Environment of one polling tick: the signature listing returned by the
source for a given cursor, the per-signature transaction fetch outcomes, and
the order in which the concurrently dispatched `index_transaction` futures
complete (indices into the listing, arbitrary, as `FuturesUnordered` imposes
no order). -/
structure TickEnv where
  signatures_for : Option SignatureBytes → Except String (List String)
  get_transaction : String → Except String TxResponse
  completion_order : List Nat

/-- Drain the `FuturesUnordered` set: run each per-signature call to
completion in completion order, propagating the first failure (`res?` in the
`while let` loop) and threading the shared backend state. -/
def process_completions (env : TickEnv) (account : Pubkey) :
    List String → MockDb → RunResult IndexerError MockDb
  | [], db => .ok db
  | signature :: rest, db =>
    match DriftEventIndexer.index_transaction (env.get_transaction signature) db account signature with
    | .panics => .panics
    | .fails e => .fails e
    | .ok db2 => process_completions env account rest db2

/-- Embedding of `DriftEventIndexer::index_account_events`: read the cursor,
list up to `MAX_TXS_PER_PERIOD` signatures newer than it (newest first), and
run one `index_transaction` per listed signature, completing in the
environment's completion order. -/
def DriftEventIndexer.index_account_events (env : TickEnv) (db : MockDb)
    (account : Pubkey) : RunResult IndexerError MockDb :=
  let last_signature := db.last_indexed_signature
  match env.signatures_for last_signature with
  | .error e => .fails (.Rpc e)
  | .ok signatures =>
    process_completions env account
      (env.completion_order.filterMap (fun i => signatures.get? i)) db

/-- The polling loop body of `DriftEventIndexer::run` over a finite prefix
of tick environments: each tick runs one full `index_account_events` pass,
and the `?` after it propagates any tick error out of the loop; `ok` means
the loop is still waiting for the next tick after consuming the prefix. -/
def runTicks (account : Pubkey) : List TickEnv → MockDb → RunResult IndexerError MockDb
  | [], db => .ok db
  | t :: ts, db =>
    match DriftEventIndexer.index_account_events t db account with
    | .panics => .panics
    | .fails e => .fails e
    | .ok db2 => runTicks account ts db2

/-- Embedding of `DriftEventIndexer::run`: parse the account string (an
invalid one fails with `InvalidPublicKey` before the first tick), then poll
indefinitely; the finite list of tick environments is the observed prefix of
the infinite loop. -/
def DriftEventIndexer.run (account : String) (ticks : List TickEnv)
    (db : MockDb) : RunResult IndexerError MockDb :=
  match Pubkey.try_from account with
  | none => .fails .InvalidPublicKey
  | some pk => runTicks pk ticks db

/-- The storage writes the log loop issues for one log line, in issue order. -/
def line_events (log : String) : List DbOp :=
  (match handle_log_order_action_record log with
   | .ok (some record) => [DbOp.insertOrderActionRecord record]
   | _ => []) ++
  (match handle_log_order_record log with
   | .ok (some record) => [DbOp.insertOrderRecord record]
   | _ => [])

/-- Fresh mock backend state. -/
def emptyDb : MockDb :=
  { order_action_records := [], order_records := [], last_signature := none,
     history := [] }

/-- A valid account string (32 zero bytes in base58). -/
def accountStr : String := String.mk (List.replicate 32 '1')

/-- The parsed form of `accountStr`. -/
def accountPk : Pubkey := List.replicate 32 0

/-- A valid signature string decoding to 64 zero bytes. -/
def sigNewest : String := String.mk (List.replicate 64 '1')

/-- The parsed form of `sigNewest`. -/
def sigNewestBytes : SignatureBytes := List.replicate 64 0

/-- A second, distinct valid signature string (63 zero bytes then byte 1). -/
def sigOlder : String := String.mk (List.replicate 63 '1' ++ ['2'])

/-- The parsed form of `sigOlder`. -/
def sigOlderBytes : SignatureBytes := List.replicate 63 0 ++ [1]

/-- A fetched transaction that decodes but whose account keys do not include
the drift program address. -/
def irrelevantTxResponse : TxResponse :=
  { decoded_transaction := some { static_account_keys := [] }, meta := none }

/-- A fetched transaction that decodes and touches the drift program, with no
log metadata. -/
def relevantTxResponse : TxResponse :=
  { decoded_transaction := some { static_account_keys := [drift_pda] },
     meta := none }

/-- A tick whose signature listing fails at the source (an RPC outage). -/
def rpcFailTick : TickEnv :=
  { signatures_for := fun _ => .error "rpc unavailable",
     get_transaction := fun _ => .error "rpc unavailable",
     completion_order := [] }

/-- A tick that finds no new signatures. -/
def healthyTick : TickEnv :=
  { signatures_for := fun _ => .ok [],
     get_transaction := fun _ => .error "unused",
     completion_order := [] }

/-- A tick with a two-signature batch (newest first) of relevant
transactions, whose concurrent calls complete newest first. -/
def batchTick : TickEnv :=
  { signatures_for := fun _ => .ok [sigNewest, sigOlder],
     get_transaction := fun _ => .ok relevantTxResponse,
     completion_order := [0, 1] }

/-- The log line of the in-repository unit test (a real drift fill event). -/
def testVectorLine : String :=
  "Program log: 4DRDR8LtbQGWwHZkAAAAAAIIAQABAVAItYsox9wC2v+AAz8WXQRRjyHZ0aSDao8VZMh+F12zAd0EAAAAAAAAAYLxCAAAAAAAAWDjFgAAAAAAAbKkeQIAAAAAAaowAAAAAAAAAY/f////////AAAAAe3FfpKhZkk9E4ZlwFSFEmXchAsvmwHVTjGQOBC+69TDAQ8hIQABAAGAhB4AAAAAAAGAhB4AAAAAAAGq2EwDAAAAAAE10NxKUa97dfc1auP2TjQAqOAgggM7dWBcCJ9gI3Fn5AGbdFQAAQEBoNcmAgAAAAABYOMWAAAAAAABsqR5AgAAAABAiupxBgAAAA=="

/-- The decoded record the in-repository unit test asserts for
`testVectorLine`. -/
def testVectorRecord : OrderActionRecord :=
  { ts := 1685504150,
     action := OrderAction.Fill,
     actionExplanation := OrderActionExplanation.OrderFilledWithMatch,
     marketIndex := 1,
     marketType := MarketType.Perp,
     filler := some [80, 8, 181, 139, 40, 199, 220, 2, 218, 255, 128, 3, 63, 22, 93, 4, 81, 143, 33, 217, 209, 164, 131, 106, 143, 21, 100, 200, 126, 23, 93, 179],
     fillerReward := some 1245,
     fillRecordId := some 586114,
     baseAssetAmountFilled := some 1500000,
     quoteAssetAmountFilled := some 41526450,
     takerFee := some 12458,
     makerFee := some (-8305),
     referrerReward := none,
     quoteAssetAmountSurplus := none,
     spotFulfillmentMethodFee := none,
     taker := some [237, 197, 126, 146, 161, 102, 73, 61, 19, 134, 101, 192, 84, 133, 18, 101, 220, 132, 11, 47, 155, 1, 213, 78, 49, 144, 56, 16, 190, 235, 212, 195],
     takerOrderId := some 2171151,
     takerOrderDirection := some PositionDirection.Long,
     takerOrderBaseAssetAmount := some 2000000,
     takerOrderCumulativeBaseAssetAmountFilled := some 2000000,
     takerOrderCumulativeQuoteAssetAmountFilled := some 55367850,
     maker := some [53, 208, 220, 74, 81, 175, 123, 117, 247, 53, 106, 227, 246, 78, 52, 0, 168, 224, 32, 130, 3, 59, 117, 96, 92, 8, 159, 96, 35, 113, 103, 228],
     makerOrderId := some 5534875,
     makerOrderDirection := some PositionDirection.Short,
     makerOrderBaseAssetAmount := some 36100000,
     makerOrderCumulativeBaseAssetAmountFilled := some 1500000,
     makerOrderCumulativeQuoteAssetAmountFilled := some 41526450,
     oraclePrice := 27681000000 }

/-- A log line whose payload is exactly the registered `OrderActionRecord`
discriminant with no field bytes after it. -/
def truncatedPayloadLine : String := "Program log: 4DRDR8LtbQE="

/-- A log line whose payload decodes to 8 zero bytes: a discriminant that is
registered for no event. -/
def unknownDiscLine : String := "Program log: AAAAAAAAAAA="

/-- A log line whose payload decodes to a single byte, fewer than the 8 the
discriminant split requires. -/
def shortPayloadLine : String := "Program log: AA=="


/-- A fetched transaction touching the drift program whose metadata carries
two log lines: the real fill-event test vector and a non-payload
instruction line. -/
def relevantTxWithLogs : TxResponse :=
  { decoded_transaction := some { static_account_keys := [drift_pda] },
    meta := some { log_messages := some [testVectorLine, "Program log: Instruction: FillPerpOrder"] } }

/-- The net effect of one iteration of the log loop on the backend state
(insert an extracted `OrderActionRecord`, then an extracted `OrderRecord`). -/
def apply_line (db : MockDb) (log : String) : MockDb :=
  let db1 := match handle_log_order_action_record log with
    | .ok (some record) => db.insert_order_action_record record
    | _ => db
  match handle_log_order_record log with
  | .ok (some record) => db1.insert_order_record record
  | _ => db1

/-- A log line that aborts extraction makes the log loop abort. -/
theorem index_logs_cons_panics (log : String) (rest : List String) (db : MockDb)
    (hp : try_parse_log log = .panics) :
    index_logs (log :: rest) db = .panics := by
  simp [index_logs, handle_log_order_action_record, hp]

/-- A non-aborting log line steps the log loop by `apply_line`. -/
theorem index_logs_cons_eq (log : String) (rest : List String) (db : MockDb)
    (hp : try_parse_log log ≠ .panics) :
    index_logs (log :: rest) db = index_logs rest (apply_line db log) := by
  cases hp2 : try_parse_log log with
  | panics => exact absurd hp2 hp
  | fails e =>
    simp [index_logs, apply_line, handle_log_order_action_record,
      handle_log_order_record, hp2]
  | ok v =>
    cases v with
    | none =>
      simp [index_logs, apply_line, handle_log_order_action_record,
        handle_log_order_record, hp2]
    | some ev =>
      cases ev with
      | OrderActionRecord record =>
        simp [index_logs, apply_line, handle_log_order_action_record,
          handle_log_order_record, hp2]
      | OrderRecord record =>
        simp [index_logs, apply_line, handle_log_order_action_record,
          handle_log_order_record, hp2]

/-- One log-loop iteration appends exactly that line's writes to the history. -/
theorem apply_line_history (db : MockDb) (log : String) :
    (apply_line db log).history = db.history ++ line_events log := by
  cases hp2 : try_parse_log log with
  | panics =>
    simp [apply_line, line_events, handle_log_order_action_record,
      handle_log_order_record, hp2]
  | fails e =>
    simp [apply_line, line_events, handle_log_order_action_record,
      handle_log_order_record, hp2]
  | ok v =>
    cases v with
    | none =>
      simp [apply_line, line_events, handle_log_order_action_record,
        handle_log_order_record, hp2]
    | some ev =>
      cases ev with
      | OrderActionRecord record =>
        simp [apply_line, line_events, handle_log_order_action_record,
          handle_log_order_record, hp2, MockDb.insert_order_action_record]
      | OrderRecord record =>
        simp [apply_line, line_events, handle_log_order_action_record,
          handle_log_order_record, hp2, MockDb.insert_order_record]

/-- One log-loop iteration never touches the cursor cell. -/
theorem apply_line_last_signature (db : MockDb) (log : String) :
    (apply_line db log).last_signature = db.last_signature := by
  cases hp2 : try_parse_log log with
  | panics =>
    simp [apply_line, handle_log_order_action_record, handle_log_order_record, hp2]
  | fails e =>
    simp [apply_line, handle_log_order_action_record, handle_log_order_record, hp2]
  | ok v =>
    cases v with
    | none =>
      simp [apply_line, handle_log_order_action_record, handle_log_order_record, hp2]
    | some ev =>
      cases ev with
      | OrderActionRecord record =>
        simp [apply_line, handle_log_order_action_record, handle_log_order_record,
          hp2, MockDb.insert_order_action_record]
      | OrderRecord record =>
        simp [apply_line, handle_log_order_action_record, handle_log_order_record,
          hp2, MockDb.insert_order_record]

/-- The writes of one log line are inserts only, never a cursor write. -/
theorem line_events_no_setCursor (log : String) (a : Pubkey) (v : SignatureBytes) :
    DbOp.setCursor a v ∉ line_events log := by
  intro hmem
  unfold line_events at hmem
  rcases List.mem_append.mp hmem with h | h
  · revert h
    cases handle_log_order_action_record log with
    | panics => simp
    | fails e => simp
    | ok o => cases o <;> simp
  · revert h
    cases handle_log_order_record log with
    | panics => simp
    | fails e => simp
    | ok o => cases o <;> simp

/-- A successful log loop appends only insert writes to the history. -/
theorem index_logs_ok_no_cursor (logs : List String) : ∀ db db2 : MockDb,
    index_logs logs db = .ok db2 →
    ∃ ops, db2.history = db.history ++ ops ∧ ∀ a v, DbOp.setCursor a v ∉ ops := by
  induction logs with
  | nil =>
    intro db db2 h
    simp [index_logs] at h
    exact ⟨[], by simp [h], by simp⟩
  | cons log rest ih =>
    intro db db2 h
    by_cases hp : try_parse_log log = .panics
    · rw [index_logs_cons_panics log rest db hp] at h
      simp at h
    · rw [index_logs_cons_eq log rest db hp] at h
      obtain ⟨ops, hh, hnc⟩ := ih (apply_line db log) db2 h
      refine ⟨line_events log ++ ops, ?_, ?_⟩
      · rw [hh, apply_line_history, List.append_assoc]
      · intro a v hm
        rcases List.mem_append.mp hm with hm | hm
        · exact line_events_no_setCursor log a v hm
        · exact hnc a v hm

/-- With no aborting line, the log loop returns, appends exactly the lines'
writes in line order, and leaves the cursor cell unchanged. -/
theorem index_logs_no_panic_run (logs : List String) : ∀ db : MockDb,
    (∀ l ∈ logs, try_parse_log l ≠ .panics) →
    ∃ db2, index_logs logs db = .ok db2 ∧
      db2.history = db.history ++ logs.flatMap line_events ∧
      db2.last_signature = db.last_signature := by
  induction logs with
  | nil =>
    intro db _
    exact ⟨db, by simp [index_logs], by simp, rfl⟩
  | cons log rest ih =>
    intro db hnp
    have hp : try_parse_log log ≠ .panics := hnp log (by simp)
    obtain ⟨db2, h1, h2, h3⟩ :=
      ih (apply_line db log) (fun l hl => hnp l (by simp [hl]))
    refine ⟨db2, ?_, ?_, ?_⟩
    · rw [index_logs_cons_eq log rest db hp]
      exact h1
    · rw [h2, apply_line_history, List.flatMap_cons, List.append_assoc]
    · rw [h3, apply_line_last_signature]

/-- Membership in the history after a cursor update: the write was already
present, or it is the update's own value. -/
theorem update_history_mem {db2 : MockDb} {account a : Pubkey}
    {sb v : SignatureBytes}
    (hm : DbOp.setCursor a v ∈ (db2.update_last_indexed_signature account sb).history) :
    DbOp.setCursor a v ∈ db2.history ∨ v = sb := by
  simp [MockDb.update_last_indexed_signature] at hm
  rcases hm with hm | ⟨_, hv⟩
  · exact Or.inl hm
  · exact Or.inr hv

/-- The in-repository test vector: the real fill-event log line decodes to
exactly the record the unit test in `src/indexer/src/lib.rs` asserts. -/
theorem try_parse_log_test_vector :
    try_parse_log testVectorLine =
      .ok (some (DriftEvent.OrderActionRecord testVectorRecord)) := by
  rfl

/-- Mirror of the in-repository unit test: a foreign program's log line has
no marker and yields nothing. -/
theorem try_parse_log_unrelated_line :
    try_parse_log "Program ComputeBudget111111111111111111111111111111 invoke [1]" =
      .ok none := by
  rfl

/-- Mirror of the in-repository unit test: an instruction print behind the
log marker is not valid base64 and errors. -/
theorem try_parse_log_instruction_line :
    try_parse_log "Program log: Instruction: FillPerpOrder" =
      .fails .InvalidBase64 := by
  rfl

/-- C8: for every log line, extraction returns an error exactly when the line
begins with one of the two recognized markers (the `PROGRAM_LOG` marker
checked first, then the `PROGRAM_DATA` marker, which is what `stripMarker`
computes) and the remainder fails to decode as base64; a line without either
marker yields none and never errors. -/
theorem extract_error_iff_marker_and_invalid_base64 (raw : String) :
    (try_parse_log raw = .fails LogError.InvalidBase64 ↔
      ∃ log, stripMarker raw = some log ∧ base64Decode log = none) ∧
    (stripMarker raw = none → try_parse_log raw = .ok none) := by
  constructor
  · constructor
    · intro h
      cases hm : stripMarker raw with
      | none => simp [try_parse_log, hm] at h
      | some log =>
        cases hd : base64Decode log with
        | none => exact ⟨log, rfl, hd⟩
        | some bytes =>
          exfalso
          simp [try_parse_log, hm, hd] at h
          split at h <;> simp_all
    · rintro ⟨log, hm, hd⟩
      simp [try_parse_log, hm, hd]
  · intro hm
    simp [try_parse_log, hm]

/-- Witness for C8 at concrete lines: a marker-free line yields none, and a
marker followed by invalid base64 errors. -/
theorem extract_error_iff_marker_and_invalid_base64_witness :
    try_parse_log "hello" = .ok none ∧
    try_parse_log "Program log: !" = .fails LogError.InvalidBase64 :=
  ⟨(extract_error_iff_marker_and_invalid_base64 "hello").2 (by rfl),
   ((extract_error_iff_marker_and_invalid_base64 "Program log: !").1).mpr
     ⟨"!".data, by rfl, by rfl⟩⟩

/-- C9: a marker-prefixed line whose payload decodes to at least 8 bytes
whose leading 8-byte discriminant is registered for no event extracts to
none, not an error. -/
theorem unknown_discriminant_yields_none (raw : String) (log : List Char)
    (bytes : Bytes) (hm : stripMarker raw = some log)
    (hd : base64Decode log = some bytes) (hlen : 8 ≤ bytes.length)
    (h1 : bytes.take 8 ≠ OrderActionRecord.discriminator)
    (h2 : bytes.take 8 ≠ OrderRecord.discriminator) :
    try_parse_log raw = .ok none := by
  have hnl : ¬ bytes.length < 8 := by omega
  simp [try_parse_log, hm, hd, hnl, DriftEvent.from_discriminant, h1, h2]

/-- Witness for C9: a payload of 8 zero bytes matches no registered
discriminant and extracts to none. -/
theorem unknown_discriminant_yields_none_witness :
    try_parse_log unknownDiscLine = .ok none :=
  unknown_discriminant_yields_none unknownDiscLine "AAAAAAAAAAA=".data
    (List.replicate 8 0) (by rfl) (by rfl) (by decide) (by decide) (by decide)

/-- C10: a marker-prefixed line whose payload decodes to fewer than 8 bytes
makes extraction abort at the unchecked discriminant split instead of
returning a value or an error. -/
theorem short_payload_aborts (raw : String) (log : List Char) (bytes : Bytes)
    (hm : stripMarker raw = some log) (hd : base64Decode log = some bytes)
    (hlen : bytes.length < 8) :
    try_parse_log raw = .panics := by
  simp [try_parse_log, hm, hd, hlen]

/-- Witness for C10: a single-byte payload aborts extraction. -/
theorem short_payload_aborts_witness :
    try_parse_log shortPayloadLine = .panics :=
  short_payload_aborts shortPayloadLine "AA==".data [0] (by rfl) (by rfl)
    (by decide)

/-- Counterexample to C4: this payload is exactly the registered
`OrderActionRecord` discriminant with no field bytes behind it, so its
remaining bytes do not conform to the variant layout; extraction returns
none without an error, not the decode error the claim requires. -/
theorem known_discriminant_bad_payload_counterexample :
    base64Decode "4DRDR8LtbQE=".data = some OrderActionRecord.discriminator ∧
    deserializeOrderActionRecord [] = none ∧
    try_parse_log truncatedPayloadLine = .ok none :=
  ⟨by rfl, by rfl, by rfl⟩

/-- C4 (amended): a marker-prefixed payload whose leading 8 bytes match a
registered discriminant but whose remaining bytes fail that variant's
deserialization extracts to none (the generated dispatch discards the
decode failure), never to an error or a partial record. -/
theorem known_discriminant_bad_payload_yields_none (raw : String)
    (log : List Char) (bytes : Bytes) (hm : stripMarker raw = some log)
    (hd : base64Decode log = some bytes) (hlen : 8 ≤ bytes.length)
    (hknown : bytes.take 8 = OrderActionRecord.discriminator ∨
      bytes.take 8 = OrderRecord.discriminator)
    (hfail : DriftEvent.from_discriminant (bytes.take 8) (bytes.drop 8) = none) :
    try_parse_log raw = .ok none := by
  have hnl : ¬ bytes.length < 8 := by omega
  simp [try_parse_log, hm, hd, hnl, hfail]

/-- Witness for the amended C4 at the truncated-payload line. -/
theorem known_discriminant_bad_payload_yields_none_witness :
    try_parse_log truncatedPayloadLine = .ok none :=
  known_discriminant_bad_payload_yields_none truncatedPayloadLine
    "4DRDR8LtbQE=".data OrderActionRecord.discriminator (by rfl) (by rfl)
    (by decide) (Or.inl (by decide)) (by rfl)

/-- C2 (amended): a fetched transaction that decodes but whose account-key
set omits the drift program address makes the indexing pass over its
signature persist zero events and return without error, with the whole
backend state — including the stored cursor — left unchanged (the pass does
not advance the cursor to that signature). -/
theorem irrelevant_tx_skips_with_no_effect
    (fetch_result : Except String TxResponse) (db : MockDb) (account : Pubkey)
    (s : String) (sb : SignatureBytes) (td : TxResponse) (msg : DecodedMessage)
    (hs : Signature.from_str s = some sb) (hf : fetch_result = .ok td)
    (hdec : td.decoded_transaction = some msg)
    (hkeys : msg.static_account_keys.any (fun k => k == drift_pda) = false) :
    DriftEventIndexer.index_transaction fetch_result db account s = .ok db := by
  subst hf
  simp [DriftEventIndexer.index_transaction, hs, hdec, hkeys]

/-- Witness for the amended C2 at a concrete irrelevant transaction. -/
theorem irrelevant_tx_skips_with_no_effect_witness :
    DriftEventIndexer.index_transaction (.ok irrelevantTxResponse) emptyDb
      accountPk sigNewest = .ok emptyDb :=
  irrelevant_tx_skips_with_no_effect _ emptyDb accountPk sigNewest
    sigNewestBytes irrelevantTxResponse { static_account_keys := [] }
    (by rfl) rfl (by rfl) (by rfl)

/-- Counterexample to C2: for this irrelevant transaction the pass persists
zero events and returns without error, but the stored cursor stays `none`
instead of advancing to the processed signature as the claim requires. -/
theorem irrelevant_tx_leaves_cursor_counterexample :
    DriftEventIndexer.index_transaction (.ok irrelevantTxResponse) emptyDb
      accountPk sigNewest = .ok emptyDb ∧
    Signature.from_str sigNewest = some sigNewestBytes ∧
    emptyDb.last_signature ≠ some sigNewestBytes :=
  ⟨by rfl, by rfl, by simp [emptyDb]⟩

/-- Counterexample to C3: processing one fetched relevant transaction writes
the storage itself — here the call returns unit while the cursor write to
its own signature has already been issued against the backend — so the
component does not leave persistence and cursor advancement to its caller,
and it returns no event list. -/
theorem index_transaction_storage_write_counterexample :
    DriftEventIndexer.index_transaction (.ok relevantTxResponse) emptyDb
      accountPk sigNewest =
      .ok { order_action_records := [], order_records := [],
            last_signature := some sigNewestBytes,
            history := [DbOp.setCursor accountPk sigNewestBytes] } := by
  rfl

/-- C3 (amended): processing one fetched relevant transaction performs the
storage I/O itself: any successful call ends by writing the cursor with its
own signature, after appending only its insert writes; the caller does no
persistence (and no event list is returned). -/
theorem index_transaction_persists_and_advances_itself
    (fetch_result : Except String TxResponse) (db db2 : MockDb)
    (account : Pubkey) (s : String) (sb : SignatureBytes) (td : TxResponse)
    (msg : DecodedMessage)
    (hs : Signature.from_str s = some sb) (hf : fetch_result = .ok td)
    (hdec : td.decoded_transaction = some msg)
    (hkeys : msg.static_account_keys.any (fun k => k == drift_pda) = true)
    (h : DriftEventIndexer.index_transaction fetch_result db account s = .ok db2) :
    ∃ ops, db2.history = db.history ++ ops ++ [DbOp.setCursor account sb] := by
  subst hf
  cases hmeta : td.meta with
  | none =>
    simp [DriftEventIndexer.index_transaction, hs, hdec, hkeys, hmeta] at h
    refine ⟨[], ?_⟩
    rw [← h]
    simp [MockDb.update_last_indexed_signature]
  | some meta =>
    cases hlm : meta.log_messages with
    | none =>
      simp [DriftEventIndexer.index_transaction, hs, hdec, hkeys, hmeta, hlm] at h
      refine ⟨[], ?_⟩
      rw [← h]
      simp [MockDb.update_last_indexed_signature]
    | some logs =>
      cases hil : index_logs logs db with
      | panics =>
        simp [DriftEventIndexer.index_transaction, hs, hdec, hkeys, hmeta,
          hlm, hil] at h
      | fails e =>
        simp [DriftEventIndexer.index_transaction, hs, hdec, hkeys, hmeta,
          hlm, hil] at h
      | ok dbl =>
        simp [DriftEventIndexer.index_transaction, hs, hdec, hkeys, hmeta,
          hlm, hil] at h
        obtain ⟨ops, hh, _⟩ := index_logs_ok_no_cursor logs db dbl hil
        refine ⟨ops, ?_⟩
        rw [← h]
        simp [MockDb.update_last_indexed_signature, hh, List.append_assoc]

/-- Witness for the amended C3 at a concrete relevant transaction. -/
theorem index_transaction_persists_and_advances_itself_witness :
    ∃ ops, ({ order_action_records := [], order_records := [],
              last_signature := some sigNewestBytes,
              history := [DbOp.setCursor accountPk sigNewestBytes] } : MockDb).history =
      emptyDb.history ++ ops ++ [DbOp.setCursor accountPk sigNewestBytes] :=
  index_transaction_persists_and_advances_itself (.ok relevantTxResponse)
    emptyDb
    { order_action_records := [], order_records := [],
      last_signature := some sigNewestBytes,
      history := [DbOp.setCursor accountPk sigNewestBytes] }
    accountPk sigNewest sigNewestBytes relevantTxResponse
    { static_account_keys := [drift_pda] }
    (by rfl) rfl (by rfl) (by decide)
    (by exact index_transaction_storage_write_counterexample)

/-- C5: processing one relevant transaction whose log lines all extract
without aborting collects every write the log scanner produces — for every
event kind the Registry resolves — and persists them in log-line order,
followed by the cursor write (the history records exactly the per-line
writes concatenated in line order). -/
theorem relevant_tx_collects_all_events_in_log_order
    (fetch_result : Except String TxResponse) (db : MockDb) (account : Pubkey)
    (s : String) (sb : SignatureBytes) (td : TxResponse) (msg : DecodedMessage)
    (meta : TxMeta) (logs : List String)
    (hs : Signature.from_str s = some sb) (hf : fetch_result = .ok td)
    (hdec : td.decoded_transaction = some msg)
    (hkeys : msg.static_account_keys.any (fun k => k == drift_pda) = true)
    (hmeta : td.meta = some meta) (hlm : meta.log_messages = some logs)
    (hnp : ∀ l ∈ logs, try_parse_log l ≠ .panics) :
    ∃ db2, DriftEventIndexer.index_transaction fetch_result db account s = .ok db2 ∧
      db2.history = db.history ++ logs.flatMap line_events ++
        [DbOp.setCursor account sb] := by
  subst hf
  obtain ⟨dbl, h1, h2, _⟩ := index_logs_no_panic_run logs db hnp
  refine ⟨dbl.update_last_indexed_signature account sb, ?_, ?_⟩
  · simp [DriftEventIndexer.index_transaction, hs, hdec, hkeys, hmeta, hlm, h1]
  · simp [MockDb.update_last_indexed_signature, h2, List.append_assoc]

/-- Witness for C5 at a transaction carrying the real fill-event line and a
non-payload instruction line. -/
theorem relevant_tx_collects_all_events_in_log_order_witness :
    ∃ db2, DriftEventIndexer.index_transaction (.ok relevantTxWithLogs) emptyDb
        accountPk sigNewest = .ok db2 ∧
      db2.history = emptyDb.history ++
        ([testVectorLine, "Program log: Instruction: FillPerpOrder"].flatMap line_events) ++
        [DbOp.setCursor accountPk sigNewestBytes] :=
  relevant_tx_collects_all_events_in_log_order _ emptyDb accountPk sigNewest
    sigNewestBytes relevantTxWithLogs { static_account_keys := [drift_pda] }
    { log_messages := some [testVectorLine, "Program log: Instruction: FillPerpOrder"] }
    [testVectorLine, "Program log: Instruction: FillPerpOrder"]
    (by rfl) rfl (by rfl) (by decide) (by rfl) (by rfl)
    (by
      intro l hl
      rcases List.mem_cons.mp hl with rfl | hl2
      · rw [try_parse_log_test_vector]
        simp
      · rcases List.mem_cons.mp hl2 with rfl | hl3
        · rw [try_parse_log_instruction_line]
          simp
        · exact absurd hl3 (List.not_mem_nil l))

/-- C7: whenever the processing of one fetched transaction writes the
cursor, it writes that fetch's own signature (every cursor write in the
resulting history either predates the call or carries the call's parsed
signature); consequently the final cursor after a tick is not guaranteed to
be the newest fetched signature, as the two-signature batch completing
newest-first ends with the older signature in the cursor. -/
theorem cursor_write_uses_own_signature :
    (∀ (fetch_result : Except String TxResponse) (db : MockDb)
       (account : Pubkey) (s : String) (db2 : MockDb),
       DriftEventIndexer.index_transaction fetch_result db account s = .ok db2 →
       ∀ a v, DbOp.setCursor a v ∈ db2.history →
         DbOp.setCursor a v ∈ db.history ∨ Signature.from_str s = some v) ∧
    (∃ dbf, DriftEventIndexer.index_account_events batchTick emptyDb accountPk =
        .ok dbf ∧
      dbf.last_signature = some sigOlderBytes ∧ sigOlderBytes ≠ sigNewestBytes) := by
  constructor
  · intro fetch_result db account s db2 h a v hm
    cases hs : Signature.from_str s with
    | none => simp [DriftEventIndexer.index_transaction, hs] at h
    | some sb =>
      cases fetch_result with
      | error e => simp [DriftEventIndexer.index_transaction, hs] at h
      | ok td =>
        cases hdec : td.decoded_transaction with
        | none =>
          simp [DriftEventIndexer.index_transaction, hs, hdec] at h
          subst h
          exact Or.inl hm
        | some msg =>
          cases hkeys : msg.static_account_keys.any (fun k => k == drift_pda) with
          | false =>
            simp [DriftEventIndexer.index_transaction, hs, hdec, hkeys] at h
            subst h
            exact Or.inl hm
          | true =>
            cases hmeta : td.meta with
            | none =>
              simp [DriftEventIndexer.index_transaction, hs, hdec, hkeys, hmeta] at h
              subst h
              rcases update_history_mem hm with hin | rfl
              · exact Or.inl hin
              · exact Or.inr rfl
            | some meta =>
              cases hlm : meta.log_messages with
              | none =>
                simp [DriftEventIndexer.index_transaction, hs, hdec, hkeys,
                  hmeta, hlm] at h
                subst h
                rcases update_history_mem hm with hin | rfl
                · exact Or.inl hin
                · exact Or.inr rfl
              | some logs =>
                cases hil : index_logs logs db with
                | panics =>
                  simp [DriftEventIndexer.index_transaction, hs, hdec, hkeys,
                    hmeta, hlm, hil] at h
                | fails e =>
                  simp [DriftEventIndexer.index_transaction, hs, hdec, hkeys,
                    hmeta, hlm, hil] at h
                | ok dbl =>
                  simp [DriftEventIndexer.index_transaction, hs, hdec, hkeys,
                    hmeta, hlm, hil] at h
                  subst h
                  obtain ⟨ops, hh, hnc⟩ := index_logs_ok_no_cursor logs db dbl hil
                  rcases update_history_mem hm with hin | rfl
                  · rw [hh] at hin
                    rcases List.mem_append.mp hin with hin | hin
                    · exact Or.inl hin
                    · exact absurd hin (hnc a v)
                  · exact Or.inr rfl
  · refine ⟨{ order_action_records := [], order_records := [],
              last_signature := some sigOlderBytes,
              history := [DbOp.setCursor accountPk sigNewestBytes,
                DbOp.setCursor accountPk sigOlderBytes] }, by rfl, by rfl, by decide⟩

/-- Witness for C7 applying the universal part at a concrete relevant
transaction whose resulting history holds one cursor write. -/
theorem cursor_write_uses_own_signature_witness :
    DbOp.setCursor accountPk sigNewestBytes ∈ emptyDb.history ∨
      Signature.from_str sigNewest = some sigNewestBytes :=
  cursor_write_uses_own_signature.1 (.ok relevantTxResponse) emptyDb accountPk
    sigNewest
    { order_action_records := [], order_records := [],
      last_signature := some sigNewestBytes,
      history := [DbOp.setCursor accountPk sigNewestBytes] }
    (by rfl) accountPk sigNewestBytes (by simp)

/-- C6: evaluation at the failing input.  In a two-signature batch (newest
first) of relevant transactions whose concurrent calls complete newest
first, the pass writes the cursor twice — once per per-signature call, each
with that call's own signature — and the final cursor is the older
signature: the code does not advance the cursor once per pass to the
newest signature after all fetches complete, contradicting the intended
batch-commit contract the spec states. -/
theorem cursor_overwritten_by_older_completion :
    DriftEventIndexer.index_account_events batchTick emptyDb accountPk =
      .ok { order_action_records := [], order_records := [],
            last_signature := some sigOlderBytes,
            history := [DbOp.setCursor accountPk sigNewestBytes,
              DbOp.setCursor accountPk sigOlderBytes] } ∧
    sigOlderBytes ≠ sigNewestBytes :=
  ⟨by rfl, by decide⟩

/-- C1 (amended): the run loop terminates and surfaces the error on every
failing indexing pass, fatal or not — only an invalid account identifier is
rejected before the first tick, and only successful passes return to
waiting (the outcome of a tick error is independent of the later ticks, so
no retry happens). -/
theorem run_loop_surfaces_every_tick_error :
    (∀ (a : String) (ticks : List TickEnv) (db : MockDb),
       Pubkey.try_from a = none →
       DriftEventIndexer.run a ticks db = .fails IndexerError.InvalidPublicKey) ∧
    (∀ (a : String) (pk : Pubkey) (t : TickEnv) (ts : List TickEnv)
       (db : MockDb) (e : IndexerError),
       Pubkey.try_from a = some pk →
       DriftEventIndexer.index_account_events t db pk = .fails e →
       DriftEventIndexer.run a (t :: ts) db = .fails e) := by
  constructor
  · intro a ticks db h
    simp [DriftEventIndexer.run, h]
  · intro a pk t ts db e hpk ht
    simp [DriftEventIndexer.run, hpk, runTicks, ht]

/-- Witness for the amended C1: an invalid account fails before the loop,
and a valid account with one failing tick surfaces that tick's error. -/
theorem run_loop_surfaces_every_tick_error_witness :
    DriftEventIndexer.run "" [] emptyDb = .fails IndexerError.InvalidPublicKey ∧
    DriftEventIndexer.run accountStr [rpcFailTick] emptyDb =
      .fails (IndexerError.Rpc "rpc unavailable") :=
  ⟨run_loop_surfaces_every_tick_error.1 "" [] emptyDb (by rfl),
   run_loop_surfaces_every_tick_error.2 accountStr accountPk rpcFailTick []
     emptyDb (IndexerError.Rpc "rpc unavailable") (by rfl) (by rfl)⟩

/-- Counterexample to C1: a transient source failure in the first tick
terminates the loop with that error — the loop does not return to waiting
and never reaches the second, healthy tick, although the error is not the
fatal configuration error. -/
theorem run_loop_stops_on_transient_error_counterexample :
    DriftEventIndexer.run accountStr [rpcFailTick, healthyTick] emptyDb =
      .fails (IndexerError.Rpc "rpc unavailable") ∧
    IndexerError.Rpc "rpc unavailable" ≠ IndexerError.InvalidPublicKey :=
  ⟨by rfl, by decide⟩
